import Mathlib

set_option autoImplicit false

namespace ResumeRanker

/-- Structured result shape of the criteria extraction, from app/schemas/scoring_criteria.py. -/
structure Criteria where
  criteria : List String
  deriving DecidableEq, Repr

/-- Single criterion paired with its integer score, from app/schemas/scoring_criteria.py. -/
structure CriterionScore where
  criterion : String
  score : Int
  deriving DecidableEq, Repr

/-- Scored resume: the candidate name inferred by the model and the per-criterion scores,
from app/schemas/scoring_criteria.py. -/
structure ResumeScore where
  candidate_name : String
  criterion_scores : List CriterionScore
  deriving DecidableEq, Repr

/-- HTTP error raised by the service, mirroring fastapi.HTTPException as used here. -/
structure HTTPException where
  status_code : Nat
  detail : String
  deriving DecidableEq, Repr

/-- HTTP response as built by score_resumes in app/routers/api.py. -/
structure Response where
  content : String
  media_type : String
  headers : List (String × String)
  deriving DecidableEq, Repr

/-- Value stored in one cell of a report row: candidate names are strings, scores and
totals are integers; the csv restval for a missing key is the empty string. -/
inductive Cell where
  | str (s : String)
  | int (i : Int)
  deriving DecidableEq, Repr

/-- Python dict assignment on an insertion-ordered association list: assigning to an
existing key replaces its value in place, a new key is appended at the end. -/
def dictInsert {V : Type} : List (String × V) → String → V → List (String × V)
  | [], k, v => [(k, v)]
  | p :: rest, k, v => if p.1 == k then (k, v) :: rest else p :: dictInsert rest k v

/-- Keys of an association list, in insertion order. -/
def dictKeys {V : Type} (d : List (String × V)) : List String :=
  d.map Prod.fst

/-- Models the scores_by_criterion dict comprehension of score_resumes (api.py lines
162 to 165): a repeated criterion keeps its first position and its last score. -/
def scores_by_criterion (l : List CriterionScore) : List (String × Int) :=
  l.foldl (fun d cs => dictInsert d cs.criterion cs.score) []

/-- Models the total_score computation of score_resumes (api.py line 168):
sum over the values of scores_by_criterion. -/
def sumValues (d : List (String × Int)) : Int :=
  (d.map Prod.snd).sum

/-- Row dict built for one resume (api.py lines 171 to 175): the Candidate Name entry,
then the unpacked scores_by_criterion dict, then the Total Score entry, with Python
dict update semantics throughout. -/
def buildRow (rs : ResumeScore) : List (String × Cell) :=
  dictInsert
    ((scores_by_criterion rs.criterion_scores).foldl
      (fun d p => dictInsert d p.1 (Cell.int p.2))
      (dictInsert [] "Candidate Name" (Cell.str rs.candidate_name)))
    "Total Score"
    (Cell.int (sumValues (scores_by_criterion rs.criterion_scores)))

/-- Python str conversion applied by the csv writer to each cell value. -/
def cellToString : Cell → String
  | .str s => s
  | .int i => toString i

/-- QUOTE_MINIMAL test of the Python csv module: a field is quoted when it holds the
delimiter, the quote character or a line terminator character. -/
def needsQuoting (s : String) : Bool :=
  s.data.any (fun c => c == ',' || c == '"' || c == '\r' || c == '\n')

/-- Doubles every quote character, as the csv module escapes quotes inside a field. -/
def escapeQuotes (s : String) : String :=
  ⟨s.data.foldr (fun c acc => if c == '"' then '"' :: '"' :: acc else c :: acc) []⟩

/-- Renders one field of a csv row under QUOTE_MINIMAL. -/
def renderField (c : Cell) : String :=
  let s := cellToString c
  if needsQuoting s then "\"" ++ escapeQuotes s ++ "\"" else s

/-- Renders one csv row: comma separated fields followed by the default line terminator
of the csv module, a carriage return and a newline. -/
def renderLine (cells : List Cell) : String :=
  String.intercalate "," (cells.map renderField) ++ "\r\n"

/-- Models the row conversion of csv.DictWriter with its defaults, extrasaction raise and
restval the empty string: a row key outside fieldnames raises ValueError, a fieldname
missing from the row becomes an empty field. -/
def dictToList (fieldnames : List String) (row : List (String × Cell)) :
    Except String (List Cell) :=
  if row.any (fun p => !(fieldnames.contains p.1)) then
    .error "dict contains fields not in fieldnames"
  else
    .ok (fieldnames.map (fun k => (List.lookup k row).getD (Cell.str "")))

/-- Models DictWriter.writeheader: the header row maps every field name to itself. -/
def writeheader (fieldnames : List String) : Except String (List Cell) :=
  dictToList fieldnames (fieldnames.map (fun k => (k, Cell.str k)))

/-- Models DictWriter.writerows: rows are written in order and the first failing row
aborts everything with its error. -/
def writeRows (fieldnames : List String) : List (List (String × Cell)) → Except String String
  | [] => .ok ""
  | row :: rest =>
    match dictToList fieldnames row with
    | .error e => .error e
    | .ok cells =>
      match writeRows fieldnames rest with
      | .error e => .error e
      | .ok s => .ok (renderLine cells ++ s)

/-- Models the csv assembly of score_resumes (api.py lines 179 to 193): an empty batch
writes nothing, otherwise fieldnames are the keys of the first row and the header and
every row go through the DictWriter conversion. -/
def buildReport : List (List (String × Cell)) → Except String String
  | [] => .ok ""
  | first :: rest =>
    match writeheader (dictKeys first) with
    | .error e => .error e
    | .ok headerCells =>
      match writeRows (dictKeys first) (first :: rest) with
      | .error e => .error e
      | .ok body => .ok (renderLine headerCells ++ body)

/-- Models the aggregation and response of score_resumes (api.py lines 150 to 196),
parameterized by the ResumeScore values the scoring service returned for the batch, in
file order; an uncaught csv ValueError is the error case. -/
def score_resumes (resume_score_list : List ResumeScore) : Except String Response :=
  match buildReport (resume_score_list.map buildRow) with
  | .error e => .error e
  | .ok csv_content =>
    .ok ⟨csv_content, "text/csv",
      [("Content-Disposition", "attachment; filename=resume-scoring.csv")]⟩

/-- Models llm_service.call_gpt_api: the provider is an oracle from the two messages to
either a parsed value of the requested result shape or a failure text. On failure the
original text goes only to the server log, first component is what the caller sees: one
fixed generic HTTP 500 detail. -/
def call_gpt_api (α : Type) (llm : String → String → Except String α)
    (system_message user_message : String) : Except HTTPException α × List String :=
  match llm system_message user_message with
  | .ok parsed => (.ok parsed, [])
  | .error e =>
    (.error ⟨500, "An unexpected error occurred while processing your request. Please try again later."⟩,
     ["OpenAI GPT API call failed while parsing the response : " ++ e])

/-- System instruction of extract_job_criteria, abridged to its operative sentences; the
exact prompt wording is free text for the external model and not load bearing. -/
def extraction_system_message : String :=
  "You are an expert HR assistant. If the user provided text is a valid job description, extract the key ranking criteria from the job description. If the user provided text is a not a valid job description, return an empty list."

/-- Models llm_service.extract_job_criteria: calls the structured LLM client with the
extraction prompt, then rejects an empty criteria list with the fixed HTTP 400 detail,
and otherwise returns the parsed Criteria unchanged. -/
def extract_job_criteria (llm : String → String → Except String Criteria)
    (job_description : String) : Except HTTPException Criteria :=
  match (call_gpt_api Criteria llm extraction_system_message job_description).fst with
  | .error e => .error e
  | .ok response =>
    if response.criteria.length == 0 then
      .error ⟨400, "Invalid file. Please upload a valid job description."⟩
    else
      .ok response

/-- System instruction of score_resume with the joined criteria list embedded, abridged
to its operative sentences. -/
def scoring_system_message (criteria_str : String) : String :=
  "You are an expert HR assistant tasked with evaluating resumes against specific job criteria. For each criterion, assign a score from 0 (lowest match) to 5 (highest match). Given a resume, evaluate the candidate ONLY against the following criteria: "
    ++ criteria_str
    ++ " For each criterion, provide a score between 0 and 5. In the response, make sure that the CriterionScore.criterion exactly matches the provided criterion."

/-- Models llm_service.score_resume: joins the criteria with newlines into the scoring
prompt and returns whatever the structured call parsed, unchanged and unvalidated. -/
def score_resume (llm : String → String → Except String ResumeScore)
    (resume_criteria : List String) (resume_content : String) :
    Except HTTPException ResumeScore :=
  let criteria_str := String.intercalate "\n" resume_criteria
  (call_gpt_api ResumeScore llm (scoring_system_message criteria_str)
    ("Resume: " ++ resume_content)).fst

/-- Models file_utils.extract_text_from_pdf: the PyPDF2 parse outcome is an oracle giving
either the per-page texts or a parser error text. Page texts are joined with newlines; a
parser failure is logged with its original text and surfaces a fixed HTTP 500 detail. -/
def extract_text_from_pdf (parse : Except String (List String)) :
    Except HTTPException String × List String :=
  match parse with
  | .ok pages => (.ok (String.intercalate "\n" pages), [])
  | .error e =>
    (.error ⟨500, "Error extracting text from PDF."⟩,
     ["Error extracting text from PDF. : " ++ e])

/-- Models file_utils.extract_text_from_docx in the same way, over the paragraph texts. -/
def extract_text_from_docx (parse : Except String (List String)) :
    Except HTTPException String × List String :=
  match parse with
  | .ok paras => (.ok (String.intercalate "\n" paras), [])
  | .error e =>
    (.error ⟨500, "Error extracting text from the document."⟩,
     ["Error extracting text from the document. : " ++ e])

/-- Python str.lower over the characters of a string. -/
def pyLower (s : String) : String :=
  ⟨s.data.map Char.toLower⟩

/-- Python str.endswith as a character-level suffix test. -/
def pyEndsWith (s suffix : String) : Bool :=
  suffix.data.isSuffixOf s.data

/-- Models file_utils.extract_text_from_file: extension sniffing on the lowercased file
name picks the parser; an unknown extension is rejected with the fixed HTTP 400 detail
before any parse outcome is consulted. -/
def extract_text_from_file (pdfParse docxParse : Except String (List String))
    (file_name : String) : Except HTTPException String × List String :=
  if pyEndsWith (pyLower file_name) ".pdf" then
    extract_text_from_pdf pdfParse
  else if pyEndsWith (pyLower file_name) ".docx" then
    extract_text_from_docx docxParse
  else
    (.error ⟨400, "Unsupported file format. Only PDF and DOCX are supported."⟩,
     ["Unsupported file format. Only PDF and DOCX are supported."])

/-- Score of the last occurrence of a criterion in the returned list, the value a Python
dict comprehension keeps for a repeated key. -/
def lastScore (l : List CriterionScore) (c : String) : Option Int :=
  (l.reverse.find? (fun cs => cs.criterion == c)).map CriterionScore.score

theorem lookup_dictInsert_self {V : Type} (d : List (String × V)) (k : String) (v : V) :
    List.lookup k (dictInsert d k v) = some v := by
  induction d with
  | nil => simp [dictInsert, List.lookup]
  | cons p rest ih =>
    by_cases h : p.1 = k
    · simp [dictInsert, h, List.lookup]
    · have hb : (p.1 == k) = false := beq_eq_false_iff_ne.mpr h
      have hk : (k == p.1) = false := beq_eq_false_iff_ne.mpr (Ne.symm h)
      simp [dictInsert, hb, List.lookup, hk, ih]

theorem lookup_dictInsert_ne {V : Type} (d : List (String × V)) (k kx : String) (v : V)
    (h : kx ≠ k) : List.lookup kx (dictInsert d k v) = List.lookup kx d := by
  induction d with
  | nil => simp [dictInsert, List.lookup, beq_eq_false_iff_ne.mpr h]
  | cons p rest ih =>
    by_cases hp : p.1 = k
    · have hb : (p.1 == k) = true := beq_iff_eq.mpr hp
      have hx : (kx == k) = false := beq_eq_false_iff_ne.mpr h
      have hxp : (kx == p.1) = false := beq_eq_false_iff_ne.mpr (hp ▸ h)
      simp [dictInsert, hb, List.lookup, hx, hxp]
    · have hb : (p.1 == k) = false := beq_eq_false_iff_ne.mpr hp
      by_cases hxp : kx = p.1
      · have hx : (kx == p.1) = true := beq_iff_eq.mpr hxp
        simp [dictInsert, hb, List.lookup, hx]
      · have hx : (kx == p.1) = false := beq_eq_false_iff_ne.mpr hxp
        simp [dictInsert, hb, List.lookup, hx, ih]

theorem mem_dictKeys_iff_lookup_isSome {V : Type} (d : List (String × V)) (k : String) :
    k ∈ dictKeys d ↔ (List.lookup k d).isSome := by
  induction d with
  | nil => simp [dictKeys, List.lookup]
  | cons p rest ih =>
    by_cases h : k = p.1
    · have hb : (k == p.1) = true := beq_iff_eq.mpr h
      simp [dictKeys, List.lookup, hb, h]
    · have hb : (k == p.1) = false := beq_eq_false_iff_ne.mpr h
      simp [dictKeys, List.lookup, hb, h, ih]

theorem mem_dictKeys_dictInsert_self {V : Type} (d : List (String × V)) (k : String) (v : V) :
    k ∈ dictKeys (dictInsert d k v) := by
  rw [mem_dictKeys_iff_lookup_isSome, lookup_dictInsert_self]
  rfl

theorem mem_dictKeys_dictInsert_of_mem {V : Type} (d : List (String × V)) (k kx : String)
    (v : V) (h : kx ∈ dictKeys d) : kx ∈ dictKeys (dictInsert d k v) := by
  by_cases hk : kx = k
  · subst hk; exact mem_dictKeys_dictInsert_self d kx v
  · rw [mem_dictKeys_iff_lookup_isSome, lookup_dictInsert_ne d k kx v hk]
    rw [mem_dictKeys_iff_lookup_isSome] at h
    exact h

theorem mem_dictKeys_of_mem_dictInsert {V : Type} (d : List (String × V)) (k kx : String)
    (v : V) (h : kx ∈ dictKeys (dictInsert d k v)) : kx = k ∨ kx ∈ dictKeys d := by
  by_cases hk : kx = k
  · exact Or.inl hk
  · rw [mem_dictKeys_iff_lookup_isSome, lookup_dictInsert_ne d k kx v hk] at h
    rw [mem_dictKeys_iff_lookup_isSome]
    exact Or.inr h

theorem nodup_dictKeys_dictInsert {V : Type} (d : List (String × V)) (k : String) (v : V)
    (h : (dictKeys d).Nodup) : (dictKeys (dictInsert d k v)).Nodup := by
  induction d with
  | nil => simp [dictInsert, dictKeys]
  | cons p rest ih =>
    simp only [dictKeys, List.map_cons, List.nodup_cons] at h
    by_cases hp : p.1 = k
    · have hb : (p.1 == k) = true := beq_iff_eq.mpr hp
      simp only [dictInsert, hb, if_true]
      simp only [dictKeys, List.map_cons, List.nodup_cons]
      exact ⟨hp ▸ h.1, h.2⟩
    · have hb : (p.1 == k) = false := beq_eq_false_iff_ne.mpr hp
      simp only [dictInsert, hb, Bool.false_eq_true, not_false_eq_true, if_neg, if_false]
      simp only [dictKeys, List.map_cons, List.nodup_cons]
      refine ⟨fun hmem => ?_, ih h.2⟩
      rcases mem_dictKeys_of_mem_dictInsert rest k p.1 v hmem with h1 | h2
      · exact hp h1
      · exact h.1 h2

theorem lookup_foldl_dictInsert_not_mem {V W : Type} (g : V → W) (src : List (String × V))
    (d : List (String × W)) (k : String) :
    k ∉ dictKeys src →
      List.lookup k (src.foldl (fun acc p => dictInsert acc p.1 (g p.2)) d) =
        List.lookup k d := by
  induction src generalizing d with
  | nil => intro _; rfl
  | cons p rest ih =>
    intro h
    simp only [dictKeys, List.map_cons, List.mem_cons, not_or] at h
    simp only [List.foldl_cons]
    rw [ih (dictInsert d p.1 (g p.2)) (by simpa [dictKeys] using h.2)]
    exact lookup_dictInsert_ne d p.1 k (g p.2) h.1

theorem lookup_foldl_dictInsert_of_lookup {V W : Type} (g : V → W) (src : List (String × V))
    (d : List (String × W)) (k : String) (v : V) :
    (dictKeys src).Nodup → List.lookup k src = some v →
      List.lookup k (src.foldl (fun acc p => dictInsert acc p.1 (g p.2)) d) =
        some (g v) := by
  induction src generalizing d with
  | nil => intro _ h; cases h
  | cons p rest ih =>
    intro hnd hl
    obtain ⟨k1, v1⟩ := p
    simp only [dictKeys, List.map_cons, List.nodup_cons] at hnd
    by_cases hk : k = k1
    · have hb : (k == k1) = true := beq_iff_eq.mpr hk
      simp only [List.lookup, hb] at hl
      have hv : v1 = v := by injection hl
      subst hv
      simp only [List.foldl_cons]
      rw [lookup_foldl_dictInsert_not_mem g rest (dictInsert d k1 (g v1)) k
        (by simpa [dictKeys, hk] using hnd.1)]
      rw [hk]
      exact lookup_dictInsert_self d k1 (g v1)
    · have hb : (k == k1) = false := beq_eq_false_iff_ne.mpr hk
      simp only [List.lookup, hb] at hl
      simp only [List.foldl_cons]
      exact ih (dictInsert d k1 (g v1)) hnd.2 hl

theorem mem_dictKeys_foldl_of_mem_init {V W : Type} (g : V → W) (src : List (String × V))
    (d : List (String × W)) (k : String) (h : k ∈ dictKeys d) :
    k ∈ dictKeys (src.foldl (fun acc p => dictInsert acc p.1 (g p.2)) d) := by
  induction src generalizing d with
  | nil => exact h
  | cons p rest ih =>
    simp only [List.foldl_cons]
    exact ih (dictInsert d p.1 (g p.2)) (mem_dictKeys_dictInsert_of_mem d p.1 k (g p.2) h)

theorem mem_dictKeys_foldl_of_mem_src {V W : Type} (g : V → W) (src : List (String × V))
    (d : List (String × W)) (k : String) (h : k ∈ dictKeys src) :
    k ∈ dictKeys (src.foldl (fun acc p => dictInsert acc p.1 (g p.2)) d) := by
  induction src generalizing d with
  | nil => cases h
  | cons p rest ih =>
    simp only [dictKeys, List.map_cons, List.mem_cons] at h
    simp only [List.foldl_cons]
    rcases h with h1 | h2
    · exact mem_dictKeys_foldl_of_mem_init g rest (dictInsert d p.1 (g p.2)) k
        (h1 ▸ mem_dictKeys_dictInsert_self d p.1 (g p.2))
    · exact ih (dictInsert d p.1 (g p.2)) h2

theorem scores_by_criterion_concat (l : List CriterionScore) (cs : CriterionScore) :
    scores_by_criterion (l ++ [cs]) =
      dictInsert (scores_by_criterion l) cs.criterion cs.score := by
  simp [scores_by_criterion, List.foldl_append]

theorem lastScore_concat (l : List CriterionScore) (cs : CriterionScore) (c : String) :
    lastScore (l ++ [cs]) c =
      if cs.criterion = c then some cs.score else lastScore l c := by
  by_cases h : cs.criterion = c
  · have hb : (cs.criterion == c) = true := beq_iff_eq.mpr h
    simp [lastScore, List.reverse_append, List.find?_cons_of_pos, hb, h]
  · have hb : (cs.criterion == c) = false := beq_eq_false_iff_ne.mpr h
    simp [lastScore, List.reverse_append, List.find?_cons_of_neg, hb, h]

theorem lookup_scores_by_criterion (l : List CriterionScore) (c : String) :
    List.lookup c (scores_by_criterion l) = lastScore l c := by
  induction l using List.reverseRecOn with
  | nil => rfl
  | append_singleton l cs ih =>
    rw [scores_by_criterion_concat, lastScore_concat]
    by_cases h : cs.criterion = c
    · subst h
      simp [lookup_dictInsert_self]
    · rw [lookup_dictInsert_ne _ _ _ _ (fun hc => h hc.symm), ih, if_neg h]

theorem nodup_dictKeys_scores_by_criterion_aux (l : List CriterionScore) :
    ∀ d : List (String × Int), (dictKeys d).Nodup →
      (dictKeys (l.foldl (fun d cs => dictInsert d cs.criterion cs.score) d)).Nodup := by
  induction l with
  | nil => intro d h; exact h
  | cons cs rest ih =>
    intro d h
    exact ih (dictInsert d cs.criterion cs.score)
      (nodup_dictKeys_dictInsert d cs.criterion cs.score h)

theorem nodup_dictKeys_scores_by_criterion (l : List CriterionScore) :
    (dictKeys (scores_by_criterion l)).Nodup :=
  nodup_dictKeys_scores_by_criterion_aux l [] (by simp [dictKeys])

theorem lastScore_isSome_iff (l : List CriterionScore) (c : String) :
    (lastScore l c).isSome ↔ c ∈ l.map CriterionScore.criterion := by
  rw [lastScore, Option.isSome_map', List.find?_isSome]
  simp only [List.mem_reverse, List.mem_map, beq_iff_eq]

theorem mem_dictKeys_scores_by_criterion (l : List CriterionScore) (c : String) :
    c ∈ dictKeys (scores_by_criterion l) ↔ c ∈ l.map CriterionScore.criterion := by
  rw [mem_dictKeys_iff_lookup_isSome, lookup_scores_by_criterion, lastScore_isSome_iff]

theorem lookup_buildRow_total (rs : ResumeScore) :
    List.lookup "Total Score" (buildRow rs) =
      some (Cell.int (sumValues (scores_by_criterion rs.criterion_scores))) :=
  lookup_dictInsert_self _ _ _

theorem lookup_buildRow_of_mem_criterion (rs : ResumeScore) (c : String)
    (hc : c ∈ rs.criterion_scores.map CriterionScore.criterion)
    (hne : c ≠ "Total Score") :
    List.lookup c (buildRow rs) = (lastScore rs.criterion_scores c).map Cell.int := by
  have hmem : c ∈ dictKeys (scores_by_criterion rs.criterion_scores) :=
    (mem_dictKeys_scores_by_criterion _ _).mpr hc
  have hsome : (List.lookup c (scores_by_criterion rs.criterion_scores)).isSome :=
    (mem_dictKeys_iff_lookup_isSome _ _).mp hmem
  obtain ⟨v, hv⟩ := Option.isSome_iff_exists.mp hsome
  rw [buildRow, lookup_dictInsert_ne _ _ _ _ hne,
    lookup_foldl_dictInsert_of_lookup Cell.int _ _ c v
      (nodup_dictKeys_scores_by_criterion _) hv]
  rw [lookup_scores_by_criterion] at hv
  rw [hv]
  rfl

theorem mem_dictKeys_buildRow_of_criterion (rs : ResumeScore) (c : String)
    (hc : c ∈ rs.criterion_scores.map CriterionScore.criterion) :
    c ∈ dictKeys (buildRow rs) := by
  have hmem : c ∈ dictKeys (scores_by_criterion rs.criterion_scores) :=
    (mem_dictKeys_scores_by_criterion _ _).mpr hc
  exact mem_dictKeys_dictInsert_of_mem _ _ _ _
    (mem_dictKeys_foldl_of_mem_src Cell.int _ _ c hmem)

theorem dictToList_error_of_extra_key (fieldnames : List String)
    (row : List (String × Cell)) (k : String) (hk : k ∈ dictKeys row)
    (hnk : k ∉ fieldnames) :
    dictToList fieldnames row = .error "dict contains fields not in fieldnames" := by
  have hany : row.any (fun p => !(fieldnames.contains p.1)) = true := by
    rw [List.any_eq_true]
    obtain ⟨p, hp, hpk⟩ := List.mem_map.mp hk
    refine ⟨p, hp, ?_⟩
    simp [hpk, hnk]
  rw [dictToList, if_pos hany]

theorem dictToList_error_eq (fieldnames : List String) (row : List (String × Cell))
    (e : String) (h : dictToList fieldnames row = .error e) :
    e = "dict contains fields not in fieldnames" := by
  by_cases hany : row.any (fun p => !(fieldnames.contains p.1)) = true
  · rw [dictToList, if_pos hany] at h
    injection h with h1
    exact h1.symm
  · rw [dictToList, if_neg hany] at h
    cases h

theorem dictToList_ok_of_subset (fieldnames : List String) (row : List (String × Cell))
    (h : ∀ k ∈ dictKeys row, k ∈ fieldnames) :
    dictToList fieldnames row =
      .ok (fieldnames.map (fun k => (List.lookup k row).getD (Cell.str ""))) := by
  have hany : row.any (fun p => !(fieldnames.contains p.1)) = false := by
    rw [List.any_eq_false]
    rintro ⟨k1, v1⟩ hp
    have hmem : k1 ∈ fieldnames := h k1 (List.mem_map.mpr ⟨(k1, v1), hp, rfl⟩)
    simp [hmem]
  rw [dictToList, if_neg]
  rw [hany]
  simp

theorem lookup_map_pair_self (fs : List String) (k : String) (hk : k ∈ fs) :
    List.lookup k (fs.map (fun x => (x, Cell.str x))) = some (Cell.str k) := by
  induction fs with
  | nil => cases hk
  | cons a rest ih =>
    by_cases h : k = a
    · simp [List.lookup, beq_iff_eq.mpr h, h]
    · have hmem : k ∈ rest := by
        rcases List.mem_cons.mp hk with h1 | h2
        · exact absurd h1 h
        · exact h2
      simp [List.lookup, beq_eq_false_iff_ne.mpr h, ih hmem]

theorem writeheader_ok (fieldnames : List String) :
    writeheader fieldnames = .ok (fieldnames.map Cell.str) := by
  rw [writeheader, dictToList_ok_of_subset]
  · congr 1
    apply List.map_congr_left
    intro k hk
    rw [lookup_map_pair_self fieldnames k hk]
    rfl
  · intro k hk
    simpa [dictKeys] using hk

theorem writeRows_error_of_mem (fieldnames : List String)
    (rows : List (List (String × Cell))) (row : List (String × Cell))
    (hr : row ∈ rows) (e : String)
    (he : dictToList fieldnames row = .error e) :
    writeRows fieldnames rows = .error "dict contains fields not in fieldnames" := by
  induction rows with
  | nil => cases hr
  | cons r rest ih =>
    cases hd : dictToList fieldnames r with
    | error e1 =>
      have he1 : e1 = "dict contains fields not in fieldnames" :=
        dictToList_error_eq _ _ _ hd
      simp [writeRows, hd, he1]
    | ok cells =>
      rcases List.mem_cons.mp hr with h1 | h2
      · rw [h1] at he
        rw [he] at hd
        cases hd
      · have hw := ih h2
        simp [writeRows, hd, hw]

theorem mem_of_lookup_eq_some {V : Type} (d : List (String × V)) (k : String) (v : V)
    (h : List.lookup k d = some v) : (k, v) ∈ d := by
  induction d with
  | nil => cases h
  | cons p rest ih =>
    obtain ⟨k1, v1⟩ := p
    by_cases hk : k = k1
    · have hb : (k == k1) = true := beq_iff_eq.mpr hk
      simp only [List.lookup, hb] at h
      have hv : v1 = v := by injection h
      subst hv
      subst hk
      exact List.mem_cons_self _ _
    · have hb : (k == k1) = false := beq_eq_false_iff_ne.mpr hk
      simp only [List.lookup, hb] at h
      exact List.mem_cons_of_mem _ (ih h)

theorem buildReport_error_of_extra_key (first : List (String × Cell))
    (rest : List (List (String × Cell))) (row : List (String × Cell))
    (hr : row ∈ rest) (k : String) (hk : k ∈ dictKeys row)
    (hnk : k ∉ dictKeys first) :
    buildReport (first :: rest) = .error "dict contains fields not in fieldnames" := by
  have herr := dictToList_error_of_extra_key (dictKeys first) row k hk hnk
  have hw := writeRows_error_of_mem (dictKeys first) (first :: rest) row
    (List.mem_cons_of_mem first hr) _ herr
  simp [buildReport, writeheader_ok, hw]

theorem buildReport_ok_content (first : List (String × Cell))
    (rest : List (List (String × Cell))) (csv : String)
    (h : buildReport (first :: rest) = .ok csv) :
    ∃ body : String, csv = renderLine ((dictKeys first).map Cell.str) ++ body := by
  revert h
  simp only [buildReport, writeheader_ok]
  cases hw : writeRows (dictKeys first) (first :: rest) with
  | error e => intro h; cases h
  | ok body => intro h; injection h with h1; exact ⟨body, h1.symm⟩

theorem score_resumes_eq_of_buildReport_error (l : List ResumeScore) (e : String)
    (h : buildReport (l.map buildRow) = .error e) : score_resumes l = .error e := by
  simp [score_resumes, h]

theorem score_resumes_eq_of_buildReport_ok (l : List ResumeScore) (csv : String)
    (h : buildReport (l.map buildRow) = .ok csv) :
    score_resumes l = .ok ⟨csv, "text/csv",
      [("Content-Disposition", "attachment; filename=resume-scoring.csv")]⟩ := by
  simp [score_resumes, h]

/-- C4: for every resume, the Total Score cell of its report row equals the integer sum
of all of that resume's per-criterion scores after aggregation into the per-criterion
mapping, with no reference to any header or to any other resume, so scores of criteria
outside the header-defined column set are included in the sum. -/
theorem c4_total_score_sums_all_aggregated_scores (rs : ResumeScore) :
    List.lookup "Total Score" (buildRow rs) =
      some (Cell.int (sumValues (scores_by_criterion rs.criterion_scores))) :=
  lookup_buildRow_total rs

/-- C8: an empty batch of scored resumes yields a response whose body is the empty
string, with media type text/csv and the Content-Disposition attachment header, and the
response is a success. -/
theorem c8_empty_batch_yields_empty_csv :
    score_resumes [] = .ok ⟨"", "text/csv",
      [("Content-Disposition", "attachment; filename=resume-scoring.csv")]⟩ := rfl

/-- C9: when the scoring service returns several CriterionScore entries with the same
criterion string for one resume, the row cell for that criterion holds the score of the
last returned entry, the per-criterion mapping has pairwise distinct keys so each
distinct criterion is counted exactly once, the mapping value is that last score, and
the Total Score cell is the sum over that deduplicated mapping. -/
theorem c9_duplicate_criterion_keeps_last_score (rs : ResumeScore) (c : String)
    (hc : c ∈ rs.criterion_scores.map CriterionScore.criterion)
    (hne : c ≠ "Total Score") :
    List.lookup c (buildRow rs) = (lastScore rs.criterion_scores c).map Cell.int ∧
    (dictKeys (scores_by_criterion rs.criterion_scores)).Nodup ∧
    List.lookup c (scores_by_criterion rs.criterion_scores) =
      lastScore rs.criterion_scores c ∧
    List.lookup "Total Score" (buildRow rs) =
      some (Cell.int (sumValues (scores_by_criterion rs.criterion_scores))) :=
  ⟨lookup_buildRow_of_mem_criterion rs c hc hne,
   nodup_dictKeys_scores_by_criterion _,
   lookup_scores_by_criterion _ _,
   lookup_buildRow_total rs⟩

/-- C9 witness: for the resume whose model output scores criterion X twice, first 1 and
then 4, and criterion Y once with 2, the row reports X as 4 and Total Score as 6. -/
theorem c9_witness :
    List.lookup "X" (buildRow ⟨"A", [⟨"X", 1⟩, ⟨"X", 4⟩, ⟨"Y", 2⟩]⟩) =
      some (Cell.int 4) ∧
    List.lookup "Total Score" (buildRow ⟨"A", [⟨"X", 1⟩, ⟨"X", 4⟩, ⟨"Y", 2⟩]⟩) =
      some (Cell.int 6) := by
  have h := c9_duplicate_criterion_keeps_last_score
    ⟨"A", [⟨"X", 1⟩, ⟨"X", 4⟩, ⟨"Y", 2⟩]⟩ "X" (by decide) (by decide)
  refine ⟨?_, ?_⟩
  · rw [h.1]; rfl
  · rw [h.2.2.2]; rfl

/-- C10: the reserved column names are not protected. When a returned criterion string
is exactly Candidate Name, the row cell under Candidate Name holds that criterion's last
score instead of the candidate's name; when it is exactly Total Score, the row cell
under Total Score holds the computed total, while the criterion's own score is still an
entry of the summed per-criterion mapping and so contributes to the total. -/
theorem c10_reserved_column_names_collide (rs : ResumeScore) :
    ("Candidate Name" ∈ rs.criterion_scores.map CriterionScore.criterion →
      List.lookup "Candidate Name" (buildRow rs) =
        (lastScore rs.criterion_scores "Candidate Name").map Cell.int) ∧
    ("Total Score" ∈ rs.criterion_scores.map CriterionScore.criterion →
      List.lookup "Total Score" (buildRow rs) =
        some (Cell.int (sumValues (scores_by_criterion rs.criterion_scores))) ∧
      ∃ v : Int, lastScore rs.criterion_scores "Total Score" = some v ∧
        ("Total Score", v) ∈ scores_by_criterion rs.criterion_scores) := by
  constructor
  · intro h
    exact lookup_buildRow_of_mem_criterion rs "Candidate Name" h (by decide)
  · intro h
    refine ⟨lookup_buildRow_total rs, ?_⟩
    have hsome : (lastScore rs.criterion_scores "Total Score").isSome :=
      (lastScore_isSome_iff _ _).mpr h
    obtain ⟨v, hv⟩ := Option.isSome_iff_exists.mp hsome
    refine ⟨v, hv, ?_⟩
    apply mem_of_lookup_eq_some
    rw [lookup_scores_by_criterion]
    exact hv

/-- C10 witness: for candidate N with returned criteria named Candidate Name with score
2 and Total Score with score 3, the row shows 2 where the name belongs, shows the total
5 under Total Score, and the pair of Total Score and 3 is in the summed mapping. -/
theorem c10_witness :
    List.lookup "Candidate Name"
      (buildRow ⟨"N", [⟨"Candidate Name", 2⟩, ⟨"Total Score", 3⟩]⟩) =
        some (Cell.int 2) ∧
    List.lookup "Total Score"
      (buildRow ⟨"N", [⟨"Candidate Name", 2⟩, ⟨"Total Score", 3⟩]⟩) =
        some (Cell.int 5) ∧
    ("Total Score", (3 : Int)) ∈
      scores_by_criterion [⟨"Candidate Name", 2⟩, ⟨"Total Score", 3⟩] := by
  have h := c10_reserved_column_names_collide
    ⟨"N", [⟨"Candidate Name", 2⟩, ⟨"Total Score", 3⟩]⟩
  have h1 := h.1 (by decide)
  have h2 := h.2 (by decide)
  refine ⟨?_, ?_, by decide⟩
  · rw [h1]; rfl
  · rw [h2.1]; rfl

/-- C1 counterexample: in a batch of two scored resumes where only the second resume has
criterion X, the criterion is not silently omitted and no CSV is produced; the DictWriter
conversion fails with the ValueError of its default extrasaction setting, so the claim
that the CSV is still produced successfully is false at this input. -/
theorem c1_counterexample :
    "X" ∈ dictKeys (buildRow ⟨"B", [⟨"X", 2⟩]⟩) ∧
    "X" ∉ dictKeys (buildRow ⟨"A", [⟨"Y", 1⟩]⟩) ∧
    score_resumes [⟨"A", [⟨"Y", 1⟩]⟩, ⟨"B", [⟨"X", 2⟩]⟩] =
      .error "dict contains fields not in fieldnames" :=
  ⟨by decide, by decide, rfl⟩

/-- C1, amended: the column set of the output is still determined solely by the first
resume's row, whose keys form the header of every successful CSV; but a criterion
appearing in a later resume's scores and absent from the first resume's row makes the
DictWriter conversion fail with a ValueError, so the batch produces an error instead of
a CSV with that column silently omitted. -/
theorem c1_first_resume_determines_columns (first : ResumeScore)
    (rest : List ResumeScore) :
    (∀ resp : Response, score_resumes (first :: rest) = .ok resp →
      ∃ body : String,
        resp.content = renderLine ((dictKeys (buildRow first)).map Cell.str) ++ body) ∧
    (∀ r : ResumeScore, r ∈ rest → ∀ k : String, k ∈ dictKeys (buildRow r) →
      k ∉ dictKeys (buildRow first) →
      score_resumes (first :: rest) =
        .error "dict contains fields not in fieldnames") := by
  constructor
  · intro resp h
    cases hb : buildReport ((first :: rest).map buildRow) with
    | error e =>
      rw [score_resumes_eq_of_buildReport_error (first :: rest) e hb] at h
      cases h
    | ok csv =>
      rw [score_resumes_eq_of_buildReport_ok (first :: rest) csv hb] at h
      injection h with h1
      rw [List.map_cons] at hb
      obtain ⟨body, hbody⟩ := buildReport_ok_content (buildRow first)
        (rest.map buildRow) csv hb
      rw [← h1]
      exact ⟨body, hbody⟩
  · intro r hr k hk hnk
    have herr := buildReport_error_of_extra_key (buildRow first) (rest.map buildRow)
      (buildRow r) (List.mem_map.mpr ⟨r, hr, rfl⟩) k hk hnk
    apply score_resumes_eq_of_buildReport_error
    rw [List.map_cons]
    exact herr

/-- C1 witness: the amended theorem applied to the concrete batch where the second
resume introduces criterion Z unknown to the first resume's row. -/
theorem c1_witness :
    score_resumes [⟨"A", [⟨"Y", 1⟩]⟩, ⟨"C", [⟨"Z", 2⟩]⟩] =
      .error "dict contains fields not in fieldnames" :=
  (c1_first_resume_determines_columns ⟨"A", [⟨"Y", 1⟩]⟩ [⟨"C", [⟨"Z", 2⟩]⟩]).2
    ⟨"C", [⟨"Z", 2⟩]⟩ (by decide) "Z" (by decide) (by decide)

/-- C2 counterexample: with input criteria consisting of X alone, a model reply scoring
the unmatched criterion Y is returned by score_resume unchanged, and Y appears as a key
of the candidate's row and as a column of the produced CSV with its score counted in the
total, so the claim that the unmatched criterion appears nowhere in the output is false
at this input. -/
theorem c2_counterexample :
    score_resume (fun _ _ => .ok ⟨"Bob", [⟨"Y", 3⟩]⟩) ["X"] "resume text" =
      .ok ⟨"Bob", [⟨"Y", 3⟩]⟩ ∧
    "Y" ∉ (["X"] : List String) ∧
    "Y" ∈ dictKeys (buildRow ⟨"Bob", [⟨"Y", 3⟩]⟩) ∧
    score_resumes [⟨"Bob", [⟨"Y", 3⟩]⟩] =
      .ok ⟨"Candidate Name,Y,Total Score\r\nBob,3,3\r\n", "text/csv",
        [("Content-Disposition", "attachment; filename=resume-scoring.csv")]⟩ :=
  ⟨rfl, by decide, by decide, rfl⟩

/-- C2, amended: the aggregation in score_resumes performs no matching against the input
criteria at all, so a CriterionScore whose criterion string matches no input criterion is
not dropped: it becomes a key of the per-criterion mapping and a key of that resume's
row, its score is part of the summed mapping, and when it belongs to the first resume it
becomes a header column of the CSV. -/
theorem c2_unmatched_criterion_is_kept (rs : ResumeScore) (cs : CriterionScore)
    (h : cs ∈ rs.criterion_scores) :
    cs.criterion ∈ dictKeys (scores_by_criterion rs.criterion_scores) ∧
    cs.criterion ∈ dictKeys (buildRow rs) := by
  have hm : cs.criterion ∈ rs.criterion_scores.map CriterionScore.criterion :=
    List.mem_map.mpr ⟨cs, h, rfl⟩
  exact ⟨(mem_dictKeys_scores_by_criterion _ _).mpr hm,
    mem_dictKeys_buildRow_of_criterion rs _ hm⟩

/-- C2 witness: the amended theorem applied to a resume whose model output scores the
criterion Q, which therefore appears among the keys of the mapping and of the row. -/
theorem c2_witness :
    "Q" ∈ dictKeys (scores_by_criterion [(⟨"Q", 2⟩ : CriterionScore)]) ∧
    "Q" ∈ dictKeys (buildRow ⟨"Ann", [⟨"Q", 2⟩]⟩) :=
  c2_unmatched_criterion_is_kept ⟨"Ann", [⟨"Q", 2⟩]⟩ ⟨"Q", 2⟩ (by decide)

/-- C3: when the LLM call returns a parsed Criteria value, extract_job_criteria fails
with the bad-request error whose detail is exactly the fixed invalid-file message if and
only if the returned criteria list is empty, whatever the reason for its emptiness; and
when the list is non-empty the function returns that Criteria value unchanged, so with
one or more entries in the model's extraction order. -/
theorem c3_empty_criteria_rejected (llm : String → String → Except String Criteria)
    (jd : String) (response : Criteria)
    (h : llm extraction_system_message jd = .ok response) :
    (extract_job_criteria llm jd =
        .error ⟨400, "Invalid file. Please upload a valid job description."⟩ ↔
      response.criteria = []) ∧
    (response.criteria ≠ [] → extract_job_criteria llm jd = .ok response) := by
  have hcall : (call_gpt_api Criteria llm extraction_system_message jd).fst =
      .ok response := by
    simp [call_gpt_api, h]
  simp only [extract_job_criteria, hcall]
  cases hc : response.criteria with
  | nil => simp [hc]
  | cons a t => simp [hc]

/-- C3 witness: a model reply with an empty criteria list produces exactly the fixed
400 error, and a model reply with one criterion is returned unchanged. -/
theorem c3_witness :
    extract_job_criteria (fun _ _ => .ok ⟨[]⟩) "grocery list" =
      .error ⟨400, "Invalid file. Please upload a valid job description."⟩ ∧
    extract_job_criteria (fun _ _ => .ok ⟨["5 years of Python experience"]⟩) "jd text" =
      .ok ⟨["5 years of Python experience"]⟩ := by
  constructor
  · exact (c3_empty_criteria_rejected (fun _ _ => .ok ⟨[]⟩) "grocery list" ⟨[]⟩
      rfl).1.mpr rfl
  · exact (c3_empty_criteria_rejected (fun _ _ => .ok ⟨["5 years of Python experience"]⟩)
      "jd text" ⟨["5 years of Python experience"]⟩ rfl).2 (by simp)

/-- C5: no internal error text reaches the caller. Any two parser-level failures of the
PDF text extractor surface the identical fixed detail, which is a constant independent
of the parser error and is the only thing the caller sees, while the original error text
goes to the server log; likewise any two provider-side failures of the structured LLM
call surface the identical fixed generic detail, with the provider error text only in
the server log. -/
theorem c5_internal_errors_never_leak :
    (∀ e1 e2 : String,
      (extract_text_from_pdf (.error e1)).fst = (extract_text_from_pdf (.error e2)).fst) ∧
    (∀ e : String,
      (extract_text_from_pdf (.error e)).fst =
        .error ⟨500, "Error extracting text from PDF."⟩ ∧
      (extract_text_from_pdf (.error e)).snd =
        ["Error extracting text from PDF. : " ++ e]) ∧
    (∀ (α : Type) (llm1 llm2 : String → String → Except String α)
        (s1 u1 s2 u2 e1 e2 : String),
      llm1 s1 u1 = .error e1 → llm2 s2 u2 = .error e2 →
      (call_gpt_api α llm1 s1 u1).fst = (call_gpt_api α llm2 s2 u2).fst) ∧
    (∀ (α : Type) (llm : String → String → Except String α) (s u e : String),
      llm s u = .error e →
      (call_gpt_api α llm s u).fst =
        .error ⟨500, "An unexpected error occurred while processing your request. Please try again later."⟩ ∧
      (call_gpt_api α llm s u).snd =
        ["OpenAI GPT API call failed while parsing the response : " ++ e]) := by
  refine ⟨fun e1 e2 => rfl, fun e => ⟨rfl, rfl⟩, ?_, ?_⟩
  · intro α llm1 llm2 s1 u1 s2 u2 e1 e2 h1 h2
    simp [call_gpt_api, h1, h2]
  · intro α llm s u e h
    constructor
    · simp [call_gpt_api, h]
    · simp [call_gpt_api, h]

/-- C5 witness: two distinct concrete parser errors give the same caller-visible result,
and a concrete provider failure surfaces exactly the fixed generic detail with the
original text only in the log. -/
theorem c5_witness :
    (extract_text_from_pdf (.error "bad xref table")).fst =
      (extract_text_from_pdf (.error "EOF marker not found")).fst ∧
    (call_gpt_api Criteria (fun _ _ => .error "connection timeout") "sys" "user").fst =
      .error ⟨500, "An unexpected error occurred while processing your request. Please try again later."⟩ ∧
    (call_gpt_api Criteria (fun _ _ => .error "connection timeout") "sys" "user").snd =
      ["OpenAI GPT API call failed while parsing the response : connection timeout"] := by
  refine ⟨c5_internal_errors_never_leak.1 "bad xref table" "EOF marker not found", ?_, ?_⟩
  · exact (c5_internal_errors_never_leak.2.2.2 Criteria
      (fun _ _ => .error "connection timeout") "sys" "user" "connection timeout" rfl).1
  · exact (c5_internal_errors_never_leak.2.2.2 Criteria
      (fun _ _ => .error "connection timeout") "sys" "user" "connection timeout" rfl).2

/-- C6: for every file name whose lowercased form ends neither in .pdf nor in .docx,
extract_text_from_file fails with the 400 error carrying exactly the fixed unsupported
format detail, and the result is the same whatever both parser outcomes are, so no
parsing of the file bytes is ever attempted. -/
theorem c6_unsupported_extension_rejected
    (pdfParse docxParse : Except String (List String)) (file_name : String)
    (h1 : pyEndsWith (pyLower file_name) ".pdf" = false)
    (h2 : pyEndsWith (pyLower file_name) ".docx" = false) :
    extract_text_from_file pdfParse docxParse file_name =
      (.error ⟨400, "Unsupported file format. Only PDF and DOCX are supported."⟩,
       ["Unsupported file format. Only PDF and DOCX are supported."]) := by
  simp [extract_text_from_file, h1, h2]

/-- C6 witness: a txt upload with an uppercase extension is rejected with the fixed 400
detail even though the pdf parser oracle would fail and the docx oracle would succeed. -/
theorem c6_witness :
    extract_text_from_file (.error "pdf boom") (.ok ["paragraph"]) "resume.TXT" =
      (.error ⟨400, "Unsupported file format. Only PDF and DOCX are supported."⟩,
       ["Unsupported file format. Only PDF and DOCX are supported."]) :=
  c6_unsupported_extension_rejected (.error "pdf boom") (.ok ["paragraph"]) "resume.TXT"
    (by decide) (by decide)

/-- C7 counterexample: with a fixed criteria list of one entry, a schema-conforming model
reply holding two CriterionScore entries, one of them with score 9, is returned by
score_resume exactly as parsed, so the returned ResumeScore has more entries than
criteria and a score outside the range 0 to 5, refuting the claim. -/
theorem c7_counterexample :
    score_resume (fun _ _ => .ok ⟨"B", [⟨"X", 7⟩, ⟨"Z", 9⟩]⟩) ["X"] "resume text" =
      .ok ⟨"B", [⟨"X", 7⟩, ⟨"Z", 9⟩]⟩ ∧
    (["X"] : List String).length <
      (ResumeScore.mk "B" [⟨"X", 7⟩, ⟨"Z", 9⟩]).criterion_scores.length ∧
    (⟨"Z", 9⟩ : CriterionScore) ∈
      (ResumeScore.mk "B" [⟨"X", 7⟩, ⟨"Z", 9⟩]).criterion_scores ∧
    ¬ ((9 : Int) ≤ 5) :=
  ⟨rfl, by decide, by decide, by decide⟩

/-- C7, amended: score_resume returns the parsed model reply verbatim, with no
validation, truncation or clamping, so the entry count bound by the number of criteria
and the score range 0 to 5 hold only when the external model honours them; the code
itself guarantees neither, and the schema only forces each score to be an integer. -/
theorem c7_score_resume_is_passthrough (llm : String → String → Except String ResumeScore)
    (resume_criteria : List String) (resume_content : String) (r : ResumeScore)
    (h : llm (scoring_system_message (String.intercalate "\n" resume_criteria))
        ("Resume: " ++ resume_content) = .ok r) :
    score_resume llm resume_criteria resume_content = .ok r := by
  simp [score_resume, call_gpt_api, h]

/-- C7 witness: the pass-through theorem applied to a concrete model reply. -/
theorem c7_witness :
    score_resume (fun _ _ => .ok ⟨"Ada", [⟨"K", 5⟩]⟩) ["K"] "resume body" =
      .ok ⟨"Ada", [⟨"K", 5⟩]⟩ :=
  c7_score_resume_is_passthrough (fun _ _ => .ok ⟨"Ada", [⟨"K", 5⟩]⟩) ["K"]
    "resume body" ⟨"Ada", [⟨"K", 5⟩]⟩ rfl

end ResumeRanker
